import Mathlib

/-!
Verification of the playback synchronization engine of a Discord/Spotify
mirroring bot. The definitions below are a shallow embedding of
`src/services/voice.ts`:

* `searchYouTube`, `getYouTubeAudioUrl` embed the yt-dlp wrappers
  (lines 43-96): a failing or non-`http` shell invocation resolves to `none`,
  it is never rethrown.
* `playTrack` embeds `VoiceManager.playTrack` (lines 333-407).
* `syncSpotifyPlayback` embeds `VoiceManager.syncSpotifyPlayback`
  (lines 288-331); the now-playing fetch is passed in as an `Except` value so
  that a throwing fetch can be represented.
* `connectToChannel` / `disconnect` embed the registry operations
  (lines 150-256).

External effects (shell invocations, process spawn/kill, player transitions,
timers) are recorded in an effect trace so that ordering claims can be stated.
Ghost fields `liveProcs` / `liveTimers` track which subprocesses and interval
timers have been created and not yet signalled/cleared.
-/

/-- Audio player status, mirroring `AudioPlayerStatus` of discord.js voice. -/
inductive PlayerStatus
  | idle
  | playing
  | paused
  | buffering
  | autoPaused
  deriving DecidableEq

/-- The now-playing snapshot returned by `spotifyService.getCurrentlyPlaying`
(`spotify.ts` interface `CurrentlyPlaying`, fields used by the voice module). -/
structure CurrentlyPlaying where
  trackName : String
  artistName : String
  isPlaying : Bool
  trackUrl : Option String
  deriving DecidableEq

/-- A spawned ffmpeg subprocess. `pid` identifies the process, `track` is a
ghost field recording which Spotify track URL the pipeline was started for,
`stdoutOk` records whether `spawn` produced a non-null stdout stream (the
source checks `ffmpegProcess.stdout` for null at voice.ts line 382). -/
structure Proc where
  pid : Nat
  track : String
  stdoutOk : Bool
  deriving DecidableEq

/-- The per-guild `VoiceSession` record (voice.ts lines 136-145).
`pollingInterval` holds the id of the live interval timer, `playerStatus` is
the state of the session's audio player. -/
structure VoiceSession where
  guildId : String
  channelId : String
  controllingUserId : String
  pollingInterval : Option Nat
  currentTrackUrl : Option String
  currentProcess : Option Proc
  playerStatus : PlayerStatus
  deriving DecidableEq

/-- Result value of `connectToChannel` and `disconnect`. -/
structure OpResult where
  success : Bool
  message : String
  deriving DecidableEq

/-- Observable external effects, in the order the source performs them. -/
inductive Effect
  | searchInvoke (query : String)
  | extractInvoke (fmt : String) (videoUrl : String)
  | spawnProc (pid : Nat)
  | killProc (pid : Nat)
  | playerStop
  | playerPause
  | playerUnpause
  | playerPlay (pid : Nat)
  | joinChannel (guildId : String) (channelId : String)
  | subscribePlayer
  | startTimer (tid : Nat)
  | clearTimer (tid : Nat)
  | connectionDestroy
  | logError (msg : String)
  deriving DecidableEq

/-- Environment: outcomes of the external world. `searchExec q` is the result
of the yt-dlp search shell invocation for query `q` (`Except.error` models a
throwing `execSync`); `extractExec fmt url` likewise for the per-format
`--get-url` invocation. `spawnStdoutOk` says whether a spawned ffmpeg process
has a non-null stdout. `spotifyConnected` models
`spotifyService.isUserConnected`, `joinReady` whether `entersState(..., Ready)`
succeeds within its timeout. The three `...Throws` flags model the cleanup
calls in `disconnect` raising an exception. -/
structure Env where
  searchExec : String → Except String String
  extractExec : String → String → Except String String
  spawnStdoutOk : Bool
  spotifyConnected : String → Bool
  joinReady : Bool
  joinErrorMsg : String
  killThrows : Bool
  playerStopThrows : Bool
  connectionDestroyThrows : Bool

/-- The `VoiceManager` state: the guild-to-session map plus ghost bookkeeping
of live subprocesses and interval timers, and fresh-id counters. -/
structure ManagerState where
  sessions : List (String × VoiceSession)
  liveProcs : List Nat
  liveTimers : List Nat
  nextPid : Nat
  nextTimer : Nat
  deriving DecidableEq

/-- Lookup in the guild-to-session map (`this.sessions.get(guildId)`). -/
def lookupSession (l : List (String × VoiceSession)) (g : String) :
    Option VoiceSession :=
  match l with
  | [] => none
  | p :: rest => if p.1 = g then some p.2 else lookupSession rest g

/-- Replace the binding for `g` (mutation of the session object aliased in the
map, or `Map.set` on a present key). -/
def updateSession (l : List (String × VoiceSession)) (g : String)
    (s : VoiceSession) : List (String × VoiceSession) :=
  match l with
  | [] => []
  | p :: rest => if p.1 = g then (g, s) :: rest else p :: updateSession rest g s

/-- Insert-or-replace (`Map.set`). -/
def insertSession (l : List (String × VoiceSession)) (g : String)
    (s : VoiceSession) : List (String × VoiceSession) :=
  match l with
  | [] => [(g, s)]
  | p :: rest => if p.1 = g then (g, s) :: rest else p :: insertSession rest g s

/-- Remove the binding for `g` (`Map.delete`). -/
def eraseSession (l : List (String × VoiceSession)) (g : String) :
    List (String × VoiceSession) :=
  match l with
  | [] => []
  | p :: rest => if p.1 = g then rest else p :: eraseSession rest g

/-- Well-formedness of the registry: at most one binding per guild, which is
what a JS `Map` guarantees. -/
def keysNodup (l : List (String × VoiceSession)) : Prop :=
  (l.map Prod.fst).Nodup

instance (l : List (String × VoiceSession)) : Decidable (keysNodup l) := by
  unfold keysNodup; infer_instance

/-- Structural model of the JavaScript `String.prototype.trim()` applied to
`execSync` output: strip leading and trailing whitespace. (Defined over the
character list so that it evaluates inside the kernel.) -/
def strTrim (s : String) : String :=
  ⟨((s.data.dropWhile Char.isWhitespace).reverse.dropWhile
      Char.isWhitespace).reverse⟩

/-- Structural model of `String.prototype.startsWith(pre)`. -/
def strStartsWith (s pre : String) : Bool :=
  List.isPrefixOf pre.data s.data

/-- Embedding of `searchYouTube` (voice.ts lines 43-63): run the yt-dlp search
command; a thrown error or a result not starting with `http` resolves to
`none`; the promise never rejects. -/
def searchYouTube (env : Env) (query : String) : Option String × List Effect :=
  match env.searchExec query with
  | Except.error e => (none, [Effect.searchInvoke query, Effect.logError e])
  | Except.ok raw =>
    let result := strTrim raw
    if result ≠ "" ∧ strStartsWith result "http" then
      (some result, [Effect.searchInvoke query])
    else
      (none, [Effect.searchInvoke query])

/-- The for-loop over search queries in `playTrack` (voice.ts lines 357-361):
first successful search wins. -/
def searchFirst (env : Env) : List String → Option String × List Effect
  | [] => (none, [])
  | q :: rest =>
    match searchYouTube env q with
    | (some u, effs) => (some u, effs)
    | (none, effs) =>
      let (r, effs2) := searchFirst env rest
      (r, effs ++ effs2)

/-- The format fallback ladder of `getYouTubeAudioUrl` (voice.ts line 71). -/
def ytFormats : List String :=
  ["bestaudio[ext=webm]/bestaudio[ext=m4a]/bestaudio", "251", "140", "250", "249"]

/-- The per-format loop of `getYouTubeAudioUrl` (voice.ts lines 73-87): a
throwing invocation or a non-`http` result falls through to the next format. -/
def extractFirst (env : Env) (videoUrl : String) :
    List String → Option String × List Effect
  | [] => (none, [])
  | fmt :: rest =>
    match env.extractExec fmt videoUrl with
    | Except.error _ =>
      let (r, effs) := extractFirst env videoUrl rest
      (r, Effect.extractInvoke fmt videoUrl :: effs)
    | Except.ok raw =>
      let result := strTrim raw
      if result ≠ "" ∧ strStartsWith result "http" then
        (some result, [Effect.extractInvoke fmt videoUrl])
      else
        let (r, effs) := extractFirst env videoUrl rest
        (r, Effect.extractInvoke fmt videoUrl :: effs)

/-- Embedding of `getYouTubeAudioUrl` (voice.ts lines 66-96). -/
def getYouTubeAudioUrl (env : Env) (videoUrl : String) :
    Option String × List Effect :=
  extractFirst env videoUrl ytFormats

/-- The search queries built by `playTrack` (voice.ts lines 350-354). -/
def playQueries (track : CurrentlyPlaying) : List String :=
  [track.trackName ++ " " ++ track.artistName ++ " audio",
   track.trackName ++ " " ++ track.artistName ++ " official",
   track.trackName ++ " " ++ track.artistName]

/-- Embedding of `VoiceManager.playTrack` (voice.ts lines 333-407).
Steps, in source order: re-lookup the session and bail on a falsy
`track.trackUrl`; kill the previous ffmpeg process and null the handle
(lines 341-344); `player.stop(true)` (line 347); search YouTube over the
query ladder; extract a direct audio URL; spawn ffmpeg and store the handle
(line 379); if the spawned process has a null stdout, return (line 382-385);
otherwise play the resource and finally set `currentTrackUrl` (line 400).
The catch block only logs, so the embedding is total. -/
def playTrack (env : Env) (st : ManagerState) (guildId : String)
    (track : CurrentlyPlaying) : ManagerState × List Effect :=
  match lookupSession st.sessions guildId with
  | none => (st, [])
  | some session =>
    match track.trackUrl with
    | none => (st, [])
    | some tu =>
      if tu = "" then (st, [])
      else
        let killData : ManagerState × VoiceSession × List Effect :=
          match session.currentProcess with
          | some p =>
            ({ st with liveProcs := st.liveProcs.erase p.pid },
             { session with currentProcess := none },
             [Effect.killProc p.pid])
          | none => (st, session, [])
        let st1 := killData.1
        let s1 := killData.2.1
        let killEffs := killData.2.2
        let s2 := { s1 with playerStatus := PlayerStatus.idle }
        match searchFirst env (playQueries track) with
        | (none, searchEffs) =>
          ({ st1 with sessions := updateSession st1.sessions guildId s2 },
           killEffs ++ [Effect.playerStop] ++ searchEffs)
        | (some vUrl, searchEffs) =>
          match getYouTubeAudioUrl env vUrl with
          | (none, extEffs) =>
            ({ st1 with sessions := updateSession st1.sessions guildId s2 },
             killEffs ++ [Effect.playerStop] ++ searchEffs ++ extEffs)
          | (some _, extEffs) =>
            let p : Proc := ⟨st1.nextPid, tu, env.spawnStdoutOk⟩
            let st2 := { st1 with
              liveProcs := p.pid :: st1.liveProcs,
              nextPid := st1.nextPid + 1 }
            let s3 := { s2 with currentProcess := some p }
            if env.spawnStdoutOk = false then
              ({ st2 with sessions := updateSession st2.sessions guildId s3 },
               killEffs ++ [Effect.playerStop] ++ searchEffs ++ extEffs ++
                 [Effect.spawnProc p.pid])
            else
              let s4 := { s3 with
                playerStatus := PlayerStatus.playing,
                currentTrackUrl := some tu }
              ({ st2 with sessions := updateSession st2.sessions guildId s4 },
               killEffs ++ [Effect.playerStop] ++ searchEffs ++ extEffs ++
                 [Effect.spawnProc p.pid, Effect.playerPlay p.pid])

/-- Embedding of `VoiceManager.syncSpotifyPlayback` (voice.ts lines 288-331),
one poll tick. The now-playing fetch outcome is a parameter: `Except.error`
models `getCurrentlyPlaying` throwing, which the source's try/catch turns into
a log line with no state change. -/
def syncSpotifyPlayback (env : Env) (st : ManagerState) (guildId : String)
    (fetch : Except String (Option CurrentlyPlaying)) :
    ManagerState × List Effect :=
  match lookupSession st.sessions guildId with
  | none => (st, [])
  | some session =>
    match fetch with
    | Except.error e => (st, [Effect.logError e])
    | Except.ok none =>
      if session.playerStatus ≠ PlayerStatus.idle then
        let killData : ManagerState × VoiceSession × List Effect :=
          match session.currentProcess with
          | some p =>
            ({ st with liveProcs := st.liveProcs.erase p.pid },
             { session with currentProcess := none },
             [Effect.killProc p.pid])
          | none => (st, session, [])
        let s2 := { killData.2.1 with
          playerStatus := PlayerStatus.idle, currentTrackUrl := none }
        ({ killData.1 with
            sessions := updateSession killData.1.sessions guildId s2 },
         killData.2.2 ++ [Effect.playerStop])
      else (st, [])
    | Except.ok (some cp) =>
      if cp.isPlaying = false then
        if session.playerStatus = PlayerStatus.playing then
          let sp := { session with playerStatus := PlayerStatus.paused }
          ({ st with sessions := updateSession st.sessions guildId sp },
           [Effect.playerPause])
        else (st, [])
      else
        match cp.trackUrl with
        | some tu =>
          if tu ≠ "" ∧ some tu ≠ session.currentTrackUrl then
            playTrack env st guildId cp
          else if session.playerStatus = PlayerStatus.paused then
            let sr := { session with playerStatus := PlayerStatus.playing }
            ({ st with sessions := updateSession st.sessions guildId sr },
             [Effect.playerUnpause])
          else (st, [])
        | none =>
          if session.playerStatus = PlayerStatus.paused then
            let sr := { session with playerStatus := PlayerStatus.playing }
            ({ st with sessions := updateSession st.sessions guildId sr },
             [Effect.playerUnpause])
          else (st, [])

/-- State after one poll tick. -/
def tickAfter (env : Env) (st : ManagerState) (guildId : String)
    (fetch : Except String (Option CurrentlyPlaying)) : ManagerState :=
  (syncSpotifyPlayback env st guildId fetch).1

/-- Effect trace of one poll tick. -/
def tickTrace (env : Env) (st : ManagerState) (guildId : String)
    (fetch : Except String (Option CurrentlyPlaying)) : List Effect :=
  (syncSpotifyPlayback env st guildId fetch).2

/-- The body of `connectToChannel` past the already-controlled check
(voice.ts lines 166-231): the Spotify-authorization check, the voice join
with `entersState` (a failure is caught and reported), session creation,
registration, and `startSpotifyPolling` (lines 267-278) which stores a fresh
interval timer on the just-registered session. -/
def connectStage2 (env : Env) (st : ManagerState)
    (guildId channelId channelName memberId : String) :
    ManagerState × OpResult × List Effect :=
  if env.spotifyConnected memberId = false then
    (st, ⟨false, "You need to connect your Spotify account first! Use `/spotify-login`"⟩, [])
  else if env.joinReady = false then
    (st, ⟨false, "Failed to connect to voice channel: " ++ env.joinErrorMsg⟩,
     [Effect.joinChannel guildId channelId])
  else
    let session0 : VoiceSession :=
      { guildId := guildId
        channelId := channelId
        controllingUserId := memberId
        pollingInterval := none
        currentTrackUrl := none
        currentProcess := none
        playerStatus := PlayerStatus.idle }
    let st1 := { st with sessions := insertSession st.sessions guildId session0 }
    let tid := st1.nextTimer
    let session1 := { session0 with pollingInterval := some tid }
    let st2 := { st1 with
      sessions := updateSession st1.sessions guildId session1,
      liveTimers := tid :: st1.liveTimers,
      nextTimer := st1.nextTimer + 1 }
    (st2,
     ⟨true, "Connected to " ++ channelName ++ "! Your Spotify playback will now be synced."⟩,
     [Effect.joinChannel guildId channelId, Effect.subscribePlayer,
      Effect.startTimer tid])

/-- Embedding of `VoiceManager.connectToChannel` (voice.ts lines 150-232).
The already-controlled rejection (lines 158-163) happens before anything else
and touches no state. -/
def connectToChannel (env : Env) (st : ManagerState)
    (guildId channelId channelName memberId : String) :
    ManagerState × OpResult × List Effect :=
  match lookupSession st.sessions guildId with
  | some existing =>
    if existing.controllingUserId ≠ memberId then
      (st,
       ⟨false, "<@" ++ existing.controllingUserId ++
         "> is already controlling the bot in this server."⟩,
       [])
    else connectStage2 env st guildId channelId channelName memberId
  | none => connectStage2 env st guildId channelId channelName memberId

/-- The tail of `disconnect` after the timer stop and process kill:
`session.player.stop()`, `session.connection.destroy()`,
`this.sessions.delete(guildId)` (voice.ts lines 248-250). Each call may throw;
the source has no try/catch, so a throw abandons the remaining steps and the
partially mutated state is returned alongside the error. -/
def disconnectTail (env : Env) (st : ManagerState) (guildId : String)
    (acc : List Effect) : ManagerState × List Effect × Except String OpResult :=
  if env.playerStopThrows then (st, acc, Except.error "player stop threw")
  else
    let st1 : ManagerState :=
      { st with sessions :=
          match lookupSession st.sessions guildId with
          | some s => updateSession st.sessions guildId { s with playerStatus := PlayerStatus.idle }
          | none => st.sessions }
    let acc1 := acc ++ [Effect.playerStop]
    if env.connectionDestroyThrows then
      (st1, acc1, Except.error "connection destroy threw")
    else
      ({ st1 with sessions := eraseSession st1.sessions guildId },
       acc1 ++ [Effect.connectionDestroy],
       Except.ok ⟨true, "Disconnected from voice channel."⟩)

/-- Embedding of `VoiceManager.disconnect` (voice.ts lines 234-256), with
`stopSpotifyPolling` (lines 280-286) inlined as its first step. The steps run
in source order: clear the interval timer, kill the current process, stop the
player, destroy the connection, delete the session. -/
def disconnect (env : Env) (st : ManagerState) (guildId : String) :
    ManagerState × List Effect × Except String OpResult :=
  match lookupSession st.sessions guildId with
  | none => (st, [], Except.ok ⟨false, "Bot is not connected to any voice channel."⟩)
  | some session =>
    let stopData : ManagerState × VoiceSession × List Effect :=
      match session.pollingInterval with
      | some tid =>
        ({ st with
            liveTimers := st.liveTimers.erase tid,
            sessions := updateSession st.sessions guildId { session with pollingInterval := none } },
         { session with pollingInterval := none },
         [Effect.clearTimer tid])
      | none => (st, session, [])
    let st1 := stopData.1
    let s1 := stopData.2.1
    let effs1 := stopData.2.2
    match s1.currentProcess with
    | some p =>
      if env.killThrows then (st1, effs1, Except.error "process kill threw")
      else
        disconnectTail env { st1 with liveProcs := st1.liveProcs.erase p.pid }
          guildId (effs1 ++ [Effect.killProc p.pid])
    | none => disconnectTail env st1 guildId effs1

/-- Interpretation of one effect on the set of live subprocess pids. -/
def applyProcEffect (procs : List Nat) : Effect → List Nat
  | Effect.spawnProc pid => pid :: procs
  | Effect.killProc pid => procs.erase pid
  | _ => procs

/-- `procBound1 procs effs` holds when, replaying `effs` from the live-pid set
`procs`, at most one subprocess is live at every intermediate point. -/
def procBound1 (procs : List Nat) : List Effect → Bool
  | [] => decide (procs.length ≤ 1)
  | e :: rest => decide (procs.length ≤ 1) && procBound1 (applyProcEffect procs e) rest

/-- Scanning the trace from the left, a kill of `pid` occurs before any spawn
(true also when no spawn occurs at all). -/
def noSpawnBeforeKill (pid : Nat) : List Effect → Bool
  | [] => true
  | Effect.spawnProc _ :: _ => false
  | Effect.killProc q :: rest => if q = pid then true else noSpawnBeforeKill pid rest
  | _ :: rest => noSpawnBeforeKill pid rest

/-- Effects that neither spawn nor kill a subprocess nor start playback:
search and extraction invocations, and log lines. -/
def benignEff : Effect → Bool
  | Effect.searchInvoke _ => true
  | Effect.extractInvoke _ _ => true
  | Effect.logError _ => true
  | _ => false

/-- True exactly on `playerPlay`, the completion of pipeline setup. -/
def isPlayEff : Effect → Bool
  | Effect.playerPlay _ => true
  | _ => false

/-- A tick's resolution-plus-pipeline attempt succeeded exactly when the sink
was handed a resource to play. -/
def pipelineSucceeded (trace : List Effect) : Bool := trace.any isPlayEff

/-- The live-pid set contributed by a session's process handle. -/
def procsOf : Option Proc → List Nat
  | none => []
  | some p => [p.pid]

/-- Correspondence between a session's process handle and its current track:
a non-null handle was spawned for exactly the current track. -/
def procTrackOk (s : VoiceSession) : Bool :=
  match s.currentProcess with
  | none => true
  | some p => decide (some p.track = s.currentTrackUrl)

/-- True on the error branch of an `Except`. -/
def exceptErrored : Except String OpResult → Bool
  | Except.error _ => true
  | Except.ok _ => false

lemma lookup_update_self (l : List (String × VoiceSession)) (g : String)
    (s t : VoiceSession) (h : lookupSession l g = some t) :
    lookupSession (updateSession l g s) g = some s := by
  induction l with
  | nil => simp [lookupSession] at h
  | cons p rest ih =>
    by_cases hp : p.1 = g
    · simp [updateSession, lookupSession, hp]
    · simp only [updateSession, lookupSession, hp, if_false, if_neg hp] at h ⊢
      exact ih h

lemma lookup_insert_self (l : List (String × VoiceSession)) (g : String)
    (s : VoiceSession) : lookupSession (insertSession l g s) g = some s := by
  induction l with
  | nil => simp [insertSession, lookupSession]
  | cons p rest ih =>
    by_cases hp : p.1 = g
    · simp [insertSession, lookupSession, hp]
    · simp only [insertSession, lookupSession, if_neg hp]
      exact ih

lemma keys_update (l : List (String × VoiceSession)) (g : String)
    (s : VoiceSession) :
    (updateSession l g s).map Prod.fst = l.map Prod.fst := by
  induction l with
  | nil => rfl
  | cons p rest ih =>
    by_cases hp : p.1 = g
    · simp [updateSession, hp]
    · simp [updateSession, hp, ih]

lemma lookup_none_of_not_mem (l : List (String × VoiceSession)) (g : String)
    (h : g ∉ l.map Prod.fst) : lookupSession l g = none := by
  induction l with
  | nil => rfl
  | cons p rest ih =>
    simp only [List.map_cons, List.mem_cons] at h
    push_neg at h
    have h1 : p.1 ≠ g := fun hh => h.1 hh.symm
    simp only [lookupSession, if_neg h1]
    exact ih h.2

lemma lookup_erase_of_nodup (l : List (String × VoiceSession)) (g : String)
    (h : keysNodup l) : lookupSession (eraseSession l g) g = none := by
  induction l with
  | nil => rfl
  | cons p rest ih =>
    unfold keysNodup at h
    simp only [List.map_cons, List.nodup_cons] at h
    by_cases hp : p.1 = g
    · simp only [eraseSession, if_pos hp]
      exact lookup_none_of_not_mem rest g (by rw [← hp]; exact h.1)
    · simp only [eraseSession, lookupSession, if_neg hp]
      exact ih h.2

lemma searchYouTube_effs (env : Env) (q : String) :
    ∃ t, (searchYouTube env q).2 = Effect.searchInvoke q :: t := by
  unfold searchYouTube
  cases env.searchExec q with
  | error e => exact ⟨[Effect.logError e], rfl⟩
  | ok raw =>
    by_cases h : strTrim raw ≠ "" ∧ strStartsWith (strTrim raw) "http"
    · exact ⟨[], by simp [h]⟩
    · exact ⟨[], by simp [h]⟩

lemma searchYouTube_benign (env : Env) (q : String) :
    ((searchYouTube env q).2).all benignEff = true := by
  unfold searchYouTube
  cases env.searchExec q with
  | error e => simp [benignEff]
  | ok raw =>
    by_cases h : strTrim raw ≠ "" ∧ strStartsWith (strTrim raw) "http" <;> simp [h, benignEff]

lemma searchFirst_benign (env : Env) (qs : List String) :
    ((searchFirst env qs).2).all benignEff = true := by
  induction qs with
  | nil => rfl
  | cons q rest ih =>
    have hb := searchYouTube_benign env q
    cases hsy : searchYouTube env q with
    | mk r effs =>
      rw [hsy] at hb
      cases r with
      | some u => simpa [searchFirst, hsy] using hb
      | none =>
        simp only [searchFirst, hsy, List.all_append, Bool.and_eq_true]
        exact ⟨by simpa using hb, ih⟩

lemma searchFirst_invokes (env : Env) (q : String) (qs : List String) :
    Effect.searchInvoke q ∈ (searchFirst env (q :: qs)).2 := by
  obtain ⟨t, ht⟩ := searchYouTube_effs env q
  cases hsy : searchYouTube env q with
  | mk r effs =>
    rw [hsy] at ht
    have ht2 : effs = Effect.searchInvoke q :: t := ht
    cases r with
    | some u => simp [searchFirst, hsy, ht2]
    | none => simp [searchFirst, hsy, ht2]

lemma extractFirst_benign (env : Env) (u : String) (fmts : List String) :
    ((extractFirst env u fmts).2).all benignEff = true := by
  induction fmts with
  | nil => rfl
  | cons fmt rest ih =>
    cases hx : env.extractExec fmt u with
    | error e =>
      simp only [extractFirst, hx, List.all_cons, Bool.and_eq_true]
      exact ⟨rfl, ih⟩
    | ok raw =>
      by_cases h : strTrim raw ≠ "" ∧ strStartsWith (strTrim raw) "http"
      · simp [extractFirst, hx, h, benignEff]
      · simp only [extractFirst, hx, if_neg h, List.all_cons, Bool.and_eq_true]
        exact ⟨rfl, ih⟩

lemma benign_applyProcEffect (procs : List Nat) (e : Effect)
    (h : benignEff e = true) : applyProcEffect procs e = procs := by
  cases e <;> first | rfl | simp [benignEff] at h

lemma procBound1_head (procs : List Nat) (l : List Effect) :
    procBound1 procs l = (decide (procs.length ≤ 1) && procBound1 procs l) := by
  cases l with
  | nil => simp [procBound1]
  | cons e t =>
    show procBound1 procs (e :: t) = _
    rw [procBound1, ← Bool.and_assoc, Bool.and_self]

lemma procBound1_append_benign (l r : List Effect) (procs : List Nat)
    (h : l.all benignEff = true) :
    procBound1 procs (l ++ r) = procBound1 procs r := by
  induction l with
  | nil => rfl
  | cons e t ih =>
    simp only [List.all_cons, Bool.and_eq_true] at h
    show procBound1 procs (e :: (t ++ r)) = _
    rw [procBound1, benign_applyProcEffect procs e h.1, ih h.2, ← procBound1_head]

lemma noSpawnBeforeKill_cons_kill (pid : Nat) (rest : List Effect) :
    noSpawnBeforeKill pid (Effect.killProc pid :: rest) = true := by
  simp [noSpawnBeforeKill]

lemma benign_not_play (e : Effect) (h : benignEff e = true) :
    isPlayEff e = false := by
  cases e <;> first | rfl | simp [benignEff] at h

lemma benign_no_play (l : List Effect) (h : l.all benignEff = true) :
    l.any isPlayEff = false := by
  rw [List.any_eq_false]
  intro e he
  rw [List.all_eq_true] at h
  simp [benign_not_play e (h e he)]

/-- Environment in which every provider call succeeds. -/
def envOK : Env :=
  { searchExec := fun _ => Except.ok "https://youtube.example/v1"
    extractExec := fun _ _ => Except.ok "https://audio.example/a1"
    spawnStdoutOk := true
    spotifyConnected := fun _ => true
    joinReady := true
    joinErrorMsg := "timeout"
    killThrows := false
    playerStopThrows := false
    connectionDestroyThrows := false }

/-- Environment in which every provider call throws. -/
def envProviderErr : Env :=
  { envOK with
    searchExec := fun _ => Except.error "sign in to confirm you are not a bot"
    extractExec := fun _ _ => Except.error "http error 403" }

/-- Environment in which the spawned transcoder has a null stdout. -/
def envNoStdout : Env := { envOK with spawnStdoutOk := false }

/-- Environment in which `connection.destroy()` throws. -/
def envDestroyThrows : Env := { envOK with connectionDestroyThrows := true }

/-- A session playing track A with a live subprocess and a live timer. -/
def sA : VoiceSession :=
  { guildId := "g", channelId := "c", controllingUserId := "u"
    pollingInterval := some 0, currentTrackUrl := some "spot:A"
    currentProcess := some ⟨7, "spot:A", true⟩
    playerStatus := PlayerStatus.playing }

/-- Manager state holding exactly the session `sA`. -/
def stA : ManagerState :=
  { sessions := [("g", sA)], liveProcs := [7], liveTimers := [0]
    nextPid := 8, nextTimer := 1 }

/-- Snapshot reporting a new track B as playing. -/
def cpB : CurrentlyPlaying :=
  { trackName := "B", artistName := "Art", isPlaying := true
    trackUrl := some "spot:B" }

/-- Snapshot reporting track A (the current track of `sA`) as playing. -/
def cpA : CurrentlyPlaying :=
  { trackName := "A", artistName := "Art", isPlaying := true
    trackUrl := some "spot:A" }

/-- The state of `stA` after the subprocess died mid-track: the player fell
back to idle, all bookkeeping fields still point at track A. -/
def sCrash : VoiceSession := { sA with playerStatus := PlayerStatus.idle }

/-- Manager state holding exactly `sCrash`. -/
def stCrash : ManagerState := { stA with sessions := [("g", sCrash)] }

lemma extractFirst_all_err (env : Env) (u : String) (fmts : List String)
    (h : ∀ fmt ∈ fmts, ∃ msg, env.extractExec fmt u = Except.error msg) :
    (extractFirst env u fmts).1 = none := by
  induction fmts with
  | nil => rfl
  | cons fmt rest ih =>
    obtain ⟨msg, hmsg⟩ := h fmt (List.mem_cons_self fmt rest)
    simp only [extractFirst, hmsg]
    exact ih fun f hf => h f (List.mem_cons_of_mem fmt hf)

/-- C3: a connect request for a guild that already has a session under a
different controlling user returns a conflict rejection; the whole manager
state - in particular the existing session and its `controllingUserId` - is
returned unchanged, and no effect is performed. -/
theorem connect_conflict_rejected (env : Env) (st : ManagerState)
    (g c name uid : String) (s : VoiceSession)
    (hs : lookupSession st.sessions g = some s)
    (hdiff : s.controllingUserId ≠ uid) :
    connectToChannel env st g c name uid =
      (st,
       ⟨false, "<@" ++ s.controllingUserId ++
         "> is already controlling the bot in this server."⟩,
       []) := by
  unfold connectToChannel
  rw [hs]
  simp [hdiff]

/-- C3 witness: a concrete conflicting connect request is rejected untouched. -/
theorem connect_conflict_rejected_witness :
    connectToChannel envOK stA "g" "c" "chan" "other" =
      (stA,
       ⟨false, "<@" ++ sA.controllingUserId ++
         "> is already controlling the bot in this server."⟩,
       []) :=
  connect_conflict_rejected envOK stA "g" "c" "chan" "other" sA (by decide)
    (by decide)

/-- C10: a tick whose snapshot has isPlaying=true but a null trackUrl never
reaches the resolver or the pipeline, whatever the current track is: if the
sink is paused it is unpaused, otherwise the tick is a no-op; in both cases
the state change touches only the player status, so currentTrackUrl is
unchanged. -/
theorem sync_null_trackUrl_no_resolution (env : Env) (st : ManagerState)
    (g : String) (cp : CurrentlyPlaying) (s : VoiceSession)
    (hs : lookupSession st.sessions g = some s)
    (hp : cp.isPlaying = true)
    (ht : cp.trackUrl = none) :
    (s.playerStatus = PlayerStatus.paused →
      syncSpotifyPlayback env st g (Except.ok (some cp)) =
        ({ st with
            sessions := updateSession st.sessions g { s with playerStatus := PlayerStatus.playing } },
         [Effect.playerUnpause])) ∧
    (s.playerStatus ≠ PlayerStatus.paused →
      syncSpotifyPlayback env st g (Except.ok (some cp)) = (st, [])) := by
  constructor <;> intro h <;>
    simp [syncSpotifyPlayback, hs, hp, ht, h]

/-- C10 witness: concrete null-trackUrl ticks, in both player states. -/
theorem sync_null_trackUrl_no_resolution_witness :
    (sA.playerStatus = PlayerStatus.paused →
      syncSpotifyPlayback envOK stA "g"
          (Except.ok (some { cpB with trackUrl := none })) =
        ({ stA with
            sessions := updateSession stA.sessions "g" { sA with playerStatus := PlayerStatus.playing } },
         [Effect.playerUnpause])) ∧
    (sA.playerStatus ≠ PlayerStatus.paused →
      syncSpotifyPlayback envOK stA "g"
          (Except.ok (some { cpB with trackUrl := none })) = (stA, [])) :=
  sync_null_trackUrl_no_resolution envOK stA "g" { cpB with trackUrl := none }
    sA (by decide) (by decide) (by decide)

/-- C7: a tick with isPlaying=false pauses the sink exactly when it is
currently playing, changing nothing but the player status - currentTrackUrl
and the subprocess handle are untouched and no process is killed; a later
tick with the same track, isPlaying=true and the sink paused resumes via
unpause alone, its trace being exactly `[playerUnpause]` - no resolver or
pipeline invocation. -/
theorem sync_pause_resume (env : Env) (st : ManagerState) (g : String)
    (cp cp2 : CurrentlyPlaying) (s : VoiceSession) (tu : String)
    (hs : lookupSession st.sessions g = some s) :
    (cp.isPlaying = false →
      (s.playerStatus = PlayerStatus.playing →
        syncSpotifyPlayback env st g (Except.ok (some cp)) =
          ({ st with
              sessions := updateSession st.sessions g { s with playerStatus := PlayerStatus.paused } },
           [Effect.playerPause])) ∧
      (s.playerStatus ≠ PlayerStatus.playing →
        syncSpotifyPlayback env st g (Except.ok (some cp)) = (st, []))) ∧
    (cp2.isPlaying = true → cp2.trackUrl = some tu →
     s.currentTrackUrl = some tu → s.playerStatus = PlayerStatus.paused →
      syncSpotifyPlayback env st g (Except.ok (some cp2)) =
        ({ st with
            sessions := updateSession st.sessions g { s with playerStatus := PlayerStatus.playing } },
         [Effect.playerUnpause])) := by
  constructor
  · intro hnp
    constructor <;> intro hst <;> simp [syncSpotifyPlayback, hs, hnp, hst]
  · intro hp ht hcur hst
    simp [syncSpotifyPlayback, hs, hp, ht, hcur, hst]

/-- C7 witness: a concrete pause tick on a playing sink followed by a resume
tick on the paused sink. -/
theorem sync_pause_resume_witness :
    (({ cpA with isPlaying := false } : CurrentlyPlaying).isPlaying = false →
      (sA.playerStatus = PlayerStatus.playing →
        syncSpotifyPlayback envOK stA "g"
            (Except.ok (some { cpA with isPlaying := false })) =
          ({ stA with
              sessions := updateSession stA.sessions "g" { sA with playerStatus := PlayerStatus.paused } },
           [Effect.playerPause])) ∧
      (sA.playerStatus ≠ PlayerStatus.playing →
        syncSpotifyPlayback envOK stA "g"
            (Except.ok (some { cpA with isPlaying := false })) = (stA, []))) ∧
    (cpA.isPlaying = true → cpA.trackUrl = some "spot:A" →
     sA.currentTrackUrl = some "spot:A" → sA.playerStatus = PlayerStatus.paused →
      syncSpotifyPlayback envOK stA "g" (Except.ok (some cpA)) =
        ({ stA with
            sessions := updateSession stA.sessions "g" { sA with playerStatus := PlayerStatus.playing } },
         [Effect.playerUnpause])) :=
  sync_pause_resume envOK stA "g" { cpA with isPlaying := false } cpA sA
    "spot:A" (by decide)

/-- C8 counterexample: in the post-crash state `stCrash` (subprocess of track
A died, sink idle, bookkeeping still on track A), the next tick whose
snapshot still reports track A with isPlaying=true performs no effect at all
and leaves the state unchanged: no fresh resolution is attempted and no new
pipeline is started, contrary to the claim. -/
theorem sync_crash_no_retry_cex :
    syncSpotifyPlayback envOK stCrash "g" (Except.ok (some cpA)) =
      (stCrash, []) := by decide

/-- C8 (amended): after the active generation fails mid-track, a next tick
whose snapshot reports the same track with isPlaying=true does NOT attempt a
fresh resolution or start a new pipeline: since the snapshot track equals
currentTrackUrl, the tick is a strict no-op whenever the sink is not paused
(re-resolution only ever happens for a differing track). -/
theorem sync_same_track_no_retry (env : Env) (st : ManagerState) (g : String)
    (cp : CurrentlyPlaying) (s : VoiceSession) (tu : String)
    (hs : lookupSession st.sessions g = some s)
    (hp : cp.isPlaying = true)
    (ht : cp.trackUrl = some tu)
    (hcur : s.currentTrackUrl = some tu)
    (hnp : s.playerStatus ≠ PlayerStatus.paused) :
    syncSpotifyPlayback env st g (Except.ok (some cp)) = (st, []) := by
  simp [syncSpotifyPlayback, hs, hp, ht, hcur, hnp]

/-- C8 amended witness: the concrete post-crash tick is a strict no-op. -/
theorem sync_same_track_no_retry_witness :
    syncSpotifyPlayback envOK stCrash "g" (Except.ok (some cpA)) =
      (stCrash, []) :=
  sync_same_track_no_retry envOK stCrash "g" cpA sCrash "spot:A" (by decide)
    (by decide) (by decide) (by decide) (by decide)

/-- C6: errors are caught inside the tick: a throwing now-playing fetch
leaves the manager state (hence the session and its timer) unchanged and only
logs; a throwing yt-dlp search resolves to `none` instead of rethrowing; and
if every format-specific extraction invocation throws, extraction resolves to
`none` as well. The tick itself is a total function, so no provider exception
ever escapes it. -/
theorem sync_errors_caught (env : Env) (st : ManagerState)
    (g e q u : String) (s : VoiceSession)
    (hs : lookupSession st.sessions g = some s) :
    (syncSpotifyPlayback env st g (Except.error e) =
      (st, [Effect.logError e])) ∧
    ((∃ msg, env.searchExec q = Except.error msg) →
      (searchYouTube env q).1 = none) ∧
    ((∀ fmt ∈ ytFormats, ∃ msg, env.extractExec fmt u = Except.error msg) →
      (getYouTubeAudioUrl env u).1 = none) := by
  refine ⟨by simp [syncSpotifyPlayback, hs], ?_, ?_⟩
  · rintro ⟨msg, hmsg⟩
    simp [searchYouTube, hmsg]
  · intro h
    exact extractFirst_all_err env u ytFormats h

/-- C6 witness: concrete failing fetch, search and extraction. -/
theorem sync_errors_caught_witness :
    (syncSpotifyPlayback envProviderErr stA "g" (Except.error "fetch 500") =
      (stA, [Effect.logError "fetch 500"])) ∧
    ((∃ msg, envProviderErr.searchExec "B Art audio" = Except.error msg) →
      (searchYouTube envProviderErr "B Art audio").1 = none) ∧
    ((∀ fmt ∈ ytFormats,
        ∃ msg, envProviderErr.extractExec fmt "v" = Except.error msg) →
      (getYouTubeAudioUrl envProviderErr "v").1 = none) :=
  sync_errors_caught envProviderErr stA "g" "fetch 500" "B Art audio" "v" sA
    (by decide)

/-- C4 counterexample: a connect request on `stA` by the same controlling
user "u" succeeds but is not a no-op: the manager state changes, the
registered session is replaced by a freshly initialised one (losing the
current-track and process bookkeeping), and a second polling timer becomes
live (`[1, 0]`) - the previous session's timer is never cleared. -/
theorem connect_same_user_cex :
    (connectToChannel envOK stA "g" "c" "chan" "u").2.1.success = true ∧
    (connectToChannel envOK stA "g" "c" "chan" "u").1 ≠ stA ∧
    (connectToChannel envOK stA "g" "c" "chan" "u").1.liveTimers = [1, 0] ∧
    lookupSession (connectToChannel envOK stA "g" "c" "chan" "u").1.sessions
        "g" ≠ some sA := by decide

/-- C4 (amended): a connect request for a guild whose session is controlled
by the same requesting user returns success, but instead of being a no-op it
re-runs the whole connect path: the registered session is replaced by a
freshly initialised one whose `pollingInterval` is a brand-new timer, and
that timer is added to the live timers without the previous session's timer
being cleared. -/
theorem connect_same_user_not_noop (env : Env) (st : ManagerState)
    (g c name uid : String) (s : VoiceSession)
    (hs : lookupSession st.sessions g = some s)
    (hsame : s.controllingUserId = uid)
    (hspot : env.spotifyConnected uid = true)
    (hready : env.joinReady = true) :
    (connectToChannel env st g c name uid).2.1.success = true ∧
    (connectToChannel env st g c name uid).1.liveTimers =
      st.nextTimer :: st.liveTimers ∧
    lookupSession (connectToChannel env st g c name uid).1.sessions g =
      some { guildId := g, channelId := c, controllingUserId := uid
             pollingInterval := some st.nextTimer, currentTrackUrl := none
             currentProcess := none, playerStatus := PlayerStatus.idle } := by
  have hcond : ¬ s.controllingUserId ≠ uid := by simp [hsame]
  unfold connectToChannel
  rw [hs]
  simp only [hcond, if_false]
  unfold connectStage2
  rw [hspot, hready]
  simp only [Bool.true_eq_false, if_false]
  refine ⟨by trivial, by trivial, ?_⟩
  have h0 := lookup_insert_self st.sessions g
    { guildId := g, channelId := c, controllingUserId := uid
      pollingInterval := none, currentTrackUrl := none
      currentProcess := none, playerStatus := PlayerStatus.idle }
  exact lookup_update_self _ g _ _ h0

/-- C4 amended witness: the concrete same-user reconnect on `stA`. -/
theorem connect_same_user_not_noop_witness :
    (connectToChannel envOK stA "g" "c" "chan" "u").2.1.success = true ∧
    (connectToChannel envOK stA "g" "c" "chan" "u").1.liveTimers =
      stA.nextTimer :: stA.liveTimers ∧
    lookupSession (connectToChannel envOK stA "g" "c" "chan" "u").1.sessions
        "g" =
      some { guildId := "g", channelId := "c", controllingUserId := "u"
             pollingInterval := some stA.nextTimer, currentTrackUrl := none
             currentProcess := none, playerStatus := PlayerStatus.idle } :=
  connect_same_user_not_noop envOK stA "g" "c" "chan" "u" sA (by decide)
    (by decide) (by decide) (by decide)

/-- C5 counterexample: when `connection.destroy()` throws during disconnect,
the cleanup does not run to completion - the exception propagates (no
try/catch guards the steps) and the session is left registered. -/
theorem disconnect_throw_cex :
    exceptErrored (disconnect envDestroyThrows stA "g").2.2 = true ∧
    (lookupSession (disconnect envDestroyThrows stA "g").1.sessions
        "g").isSome = true := by decide

/-- C5 (amended): disconnect returns failure when no session exists;
otherwise, provided no cleanup step throws, it clears the polling timer,
kills the active subprocess, stops the player and destroys the connection in
exactly that order and removes the session from the registry, leaving no
live timer or subprocess attributable to the session; the steps are not
guarded, so a throwing step (see the counterexample) abandons the rest. -/
theorem disconnect_cleanup (env : Env) (st : ManagerState) (g : String)
    (s : VoiceSession) (tid : Nat) (p : Proc)
    (hs : lookupSession st.sessions g = some s)
    (hnd : keysNodup st.sessions)
    (htid : s.pollingInterval = some tid)
    (hp : s.currentProcess = some p)
    (hk : env.killThrows = false)
    (hstp : env.playerStopThrows = false)
    (hdt : env.connectionDestroyThrows = false) :
    (disconnect env st g).2.1 =
      [Effect.clearTimer tid, Effect.killProc p.pid, Effect.playerStop,
       Effect.connectionDestroy] ∧
    (disconnect env st g).2.2 =
      Except.ok ⟨true, "Disconnected from voice channel."⟩ ∧
    lookupSession (disconnect env st g).1.sessions g = none ∧
    (disconnect env st g).1.liveTimers = st.liveTimers.erase tid ∧
    (disconnect env st g).1.liveProcs = st.liveProcs.erase p.pid ∧
    (∀ st2 g2, lookupSession st2.sessions g2 = none →
      disconnect env st2 g2 =
        (st2, [], Except.ok ⟨false, "Bot is not connected to any voice channel."⟩)) := by
  obtain ⟨sg, sc, su, spi, sct, spr, sps⟩ := s
  have htid2 : spi = some tid := htid
  have hp2 : spr = some p := hp
  subst htid2
  subst hp2
  have hl1 : lookupSession
      (updateSession st.sessions g ⟨sg, sc, su, none, sct, some p, sps⟩) g =
      some ⟨sg, sc, su, none, sct, some p, sps⟩ :=
    lookup_update_self st.sessions g _ _ hs
  have hnd3 : keysNodup (updateSession
      (updateSession st.sessions g ⟨sg, sc, su, none, sct, some p, sps⟩) g
      ⟨sg, sc, su, none, sct, some p, PlayerStatus.idle⟩) := by
    unfold keysNodup
    rw [keys_update, keys_update]
    exact hnd
  have hmain : disconnect env st g =
      ({ st with
          sessions := eraseSession (updateSession
            (updateSession st.sessions g ⟨sg, sc, su, none, sct, some p, sps⟩)
            g ⟨sg, sc, su, none, sct, some p, PlayerStatus.idle⟩) g,
          liveTimers := st.liveTimers.erase tid,
          liveProcs := st.liveProcs.erase p.pid },
       [Effect.clearTimer tid, Effect.killProc p.pid, Effect.playerStop,
        Effect.connectionDestroy],
       Except.ok ⟨true, "Disconnected from voice channel."⟩) := by
    unfold disconnect
    rw [hs]
    unfold disconnectTail
    simp only [hk, hstp, hdt, Bool.false_eq_true, if_false, hl1]
    rfl
  refine ⟨?_, ?_, ?_, ?_, ?_, ?_⟩
  · rw [hmain]
  · rw [hmain]
  · rw [hmain]
    exact lookup_erase_of_nodup _ g hnd3
  · rw [hmain]
  · rw [hmain]
  · intro st2 g2 h2
    unfold disconnect
    rw [h2]

/-- C5 amended witness: the concrete happy-path disconnect of `stA`. -/
theorem disconnect_cleanup_witness :
    (disconnect envOK stA "g").2.1 =
      [Effect.clearTimer 0, Effect.killProc 7, Effect.playerStop,
       Effect.connectionDestroy] ∧
    (disconnect envOK stA "g").2.2 =
      Except.ok ⟨true, "Disconnected from voice channel."⟩ ∧
    lookupSession (disconnect envOK stA "g").1.sessions "g" = none ∧
    (disconnect envOK stA "g").1.liveTimers = stA.liveTimers.erase 0 ∧
    (disconnect envOK stA "g").1.liveProcs = stA.liveProcs.erase 7 ∧
    (∀ st2 g2, lookupSession st2.sessions g2 = none →
      disconnect envOK st2 g2 =
        (st2, [], Except.ok ⟨false, "Bot is not connected to any voice channel."⟩)) :=
  disconnect_cleanup envOK stA "g" sA 0 ⟨7, "spot:A", true⟩ (by decide)
    (by decide) (by decide) (by decide) (by decide) (by decide) (by decide)

lemma playTrack_new_track (env : Env) (st : ManagerState) (g : String)
    (cp : CurrentlyPlaying) (s : VoiceSession) (tu : String)
    (hs : lookupSession st.sessions g = some s)
    (ht : cp.trackUrl = some tu)
    (hne : tu ≠ "") :
    (∃ q, Effect.searchInvoke q ∈ (playTrack env st g cp).2) ∧
    ∃ s', lookupSession (playTrack env st g cp).1.sessions g = some s' ∧
      (pipelineSucceeded (playTrack env st g cp).2 = true →
        s'.currentTrackUrl = some tu) ∧
      (pipelineSucceeded (playTrack env st g cp).2 = false →
        s'.currentTrackUrl = s.currentTrackUrl) := by
  have hq : Effect.searchInvoke (cp.trackName ++ " " ++ cp.artistName ++ " audio") ∈
      (searchFirst env (playQueries cp)).2 :=
    searchFirst_invokes env _ _
  have hsb : ((searchFirst env (playQueries cp)).2).all benignEff = true :=
    searchFirst_benign env (playQueries cp)
  unfold playTrack
  rw [hs, ht]
  simp only [if_neg hne]
  cases hcp : s.currentProcess with
  | none =>
    simp only
    cases hsf : searchFirst env (playQueries cp) with
    | mk vres searchEffs =>
    rw [hsf] at hq hsb
    simp only at hq hsb
    have hnp : searchEffs.any isPlayEff = false := benign_no_play searchEffs hsb
    cases vres with
    | none =>
      simp only
      refine ⟨⟨cp.trackName ++ " " ++ cp.artistName ++ " audio", by simp [hq]⟩,
        ⟨{ s with playerStatus := PlayerStatus.idle },
         lookup_update_self st.sessions g _ s hs, ?_, ?_⟩⟩
      · intro h
        simp [pipelineSucceeded, isPlayEff, List.any_append, hnp] at h
      · intro _
        rfl
    | some vUrl =>
      simp only
      have hxb : ((getYouTubeAudioUrl env vUrl).2).all benignEff = true :=
        extractFirst_benign env vUrl ytFormats
      cases hx : getYouTubeAudioUrl env vUrl with
      | mk ares extEffs =>
      rw [hx] at hxb
      simp only at hxb
      have hnx : extEffs.any isPlayEff = false := benign_no_play extEffs hxb
      cases ares with
      | none =>
        simp only
        refine ⟨⟨cp.trackName ++ " " ++ cp.artistName ++ " audio", by simp [hq]⟩,
          ⟨{ s with playerStatus := PlayerStatus.idle },
           lookup_update_self st.sessions g _ s hs, ?_, ?_⟩⟩
        · intro h
          simp [pipelineSucceeded, isPlayEff, List.any_append, hnp, hnx] at h
        · intro _
          rfl
      | some aUrl =>
        simp only
        cases hso : env.spawnStdoutOk with
        | false =>
          simp only [hso, if_pos rfl]
          refine ⟨⟨cp.trackName ++ " " ++ cp.artistName ++ " audio", by simp [hq]⟩,
            ⟨{ s with playerStatus := PlayerStatus.idle, currentProcess := some ⟨st.nextPid, tu, false⟩ },
             lookup_update_self st.sessions g _ s hs, ?_, ?_⟩⟩
          · intro h
            simp [pipelineSucceeded, isPlayEff, List.any_append, hnp, hnx] at h
          · intro _
            rfl
        | true =>
          simp only [hso, if_neg (by simp : ¬(true = false))]
          refine ⟨⟨cp.trackName ++ " " ++ cp.artistName ++ " audio", by simp [hq]⟩,
            ⟨{ s with playerStatus := PlayerStatus.playing, currentProcess := some ⟨st.nextPid, tu, true⟩, currentTrackUrl := some tu },
             lookup_update_self st.sessions g _ s hs, ?_, ?_⟩⟩
          · intro _
            rfl
          · intro h
            simp [pipelineSucceeded, isPlayEff, List.any_append, hnp, hnx] at h
  | some p =>
    simp only
    cases hsf : searchFirst env (playQueries cp) with
    | mk vres searchEffs =>
    rw [hsf] at hq hsb
    simp only at hq hsb
    have hnp : searchEffs.any isPlayEff = false := benign_no_play searchEffs hsb
    cases vres with
    | none =>
      simp only
      refine ⟨⟨cp.trackName ++ " " ++ cp.artistName ++ " audio", by simp [hq]⟩,
        ⟨{ s with playerStatus := PlayerStatus.idle, currentProcess := none },
         lookup_update_self st.sessions g _ s hs, ?_, ?_⟩⟩
      · intro h
        simp [pipelineSucceeded, isPlayEff, List.any_append, hnp] at h
      · intro _
        rfl
    | some vUrl =>
      simp only
      have hxb : ((getYouTubeAudioUrl env vUrl).2).all benignEff = true :=
        extractFirst_benign env vUrl ytFormats
      cases hx : getYouTubeAudioUrl env vUrl with
      | mk ares extEffs =>
      rw [hx] at hxb
      simp only at hxb
      have hnx : extEffs.any isPlayEff = false := benign_no_play extEffs hxb
      cases ares with
      | none =>
        simp only
        refine ⟨⟨cp.trackName ++ " " ++ cp.artistName ++ " audio", by simp [hq]⟩,
          ⟨{ s with playerStatus := PlayerStatus.idle, currentProcess := none },
           lookup_update_self st.sessions g _ s hs, ?_, ?_⟩⟩
        · intro h
          simp [pipelineSucceeded, isPlayEff, List.any_append, hnp, hnx] at h
        · intro _
          rfl
      | some aUrl =>
        simp only
        cases hso : env.spawnStdoutOk with
        | false =>
          simp only [hso, if_pos rfl]
          refine ⟨⟨cp.trackName ++ " " ++ cp.artistName ++ " audio", by simp [hq]⟩,
            ⟨{ s with playerStatus := PlayerStatus.idle, currentProcess := some ⟨st.nextPid, tu, false⟩ },
             lookup_update_self st.sessions g _ s hs, ?_, ?_⟩⟩
          · intro h
            simp [pipelineSucceeded, isPlayEff, List.any_append, hnp, hnx] at h
          · intro _
            rfl
        | true =>
          simp only [hso, if_neg (by simp : ¬(true = false))]
          refine ⟨⟨cp.trackName ++ " " ++ cp.artistName ++ " audio", by simp [hq]⟩,
            ⟨{ s with playerStatus := PlayerStatus.playing, currentProcess := some ⟨st.nextPid, tu, true⟩, currentTrackUrl := some tu },
             lookup_update_self st.sessions g _ s hs, ?_, ?_⟩⟩
          · intro _
            rfl
          · intro h
            simp [pipelineSucceeded, isPlayEff, List.any_append, hnp, hnx] at h

/-- C1: a tick whose snapshot has isPlaying=true and a (non-empty) trackUrl
different from the session's currentTrackUrl invokes the resolver-pipeline
routine (a search invocation appears in the tick trace); after the tick the
session's currentTrackUrl equals the snapshot trackUrl if and only if
resolution plus pipeline setup succeeded (the sink was handed a resource to
play), and whenever any step failed, currentTrackUrl is unchanged. -/
theorem sync_track_switch (env : Env) (st : ManagerState) (g : String)
    (cp : CurrentlyPlaying) (s : VoiceSession) (tu : String)
    (hs : lookupSession st.sessions g = some s)
    (hp : cp.isPlaying = true)
    (ht : cp.trackUrl = some tu)
    (hne : tu ≠ "")
    (hdiff : some tu ≠ s.currentTrackUrl) :
    (∃ q, Effect.searchInvoke q ∈ tickTrace env st g (Except.ok (some cp))) ∧
    ∃ s', lookupSession (tickAfter env st g (Except.ok (some cp))).sessions g =
        some s' ∧
      (s'.currentTrackUrl = some tu ↔
        pipelineSucceeded (tickTrace env st g (Except.ok (some cp))) = true) ∧
      (pipelineSucceeded (tickTrace env st g (Except.ok (some cp))) = false →
        s'.currentTrackUrl = s.currentTrackUrl) := by
  have hred : syncSpotifyPlayback env st g (Except.ok (some cp)) =
      playTrack env st g cp := by
    simp [syncSpotifyPlayback, hs, hp, ht, hne, hdiff]
  obtain ⟨hinv, s', hlk, hsucc, hfail⟩ :=
    playTrack_new_track env st g cp s tu hs ht hne
  unfold tickTrace tickAfter
  rw [hred]
  refine ⟨hinv, s', hlk, ⟨?_, hsucc⟩, hfail⟩
  intro he
  cases hb : pipelineSucceeded (playTrack env st g cp).2 with
  | true => rfl
  | false => exact absurd (he.symm.trans (hfail hb)) hdiff

/-- C1 witness: the concrete track switch from A to B on `stA`. -/
theorem sync_track_switch_witness :
    (∃ q, Effect.searchInvoke q ∈ tickTrace envOK stA "g" (Except.ok (some cpB))) ∧
    ∃ s', lookupSession
        (tickAfter envOK stA "g" (Except.ok (some cpB))).sessions "g" =
        some s' ∧
      (s'.currentTrackUrl = some "spot:B" ↔
        pipelineSucceeded (tickTrace envOK stA "g" (Except.ok (some cpB))) = true) ∧
      (pipelineSucceeded (tickTrace envOK stA "g" (Except.ok (some cpB))) = false →
        s'.currentTrackUrl = sA.currentTrackUrl) :=
  sync_track_switch envOK stA "g" cpB sA "spot:B" (by decide) (by decide)
    (by decide) (by decide) (by decide)

lemma procBound1_benign (l : List Effect) (h : l.all benignEff = true)
    (procs : List Nat) : procBound1 procs l = decide (procs.length ≤ 1) := by
  have h2 := procBound1_append_benign l [] procs h
  simpa [procBound1] using h2

lemma playTrack_procBound (env : Env) (st : ManagerState) (g : String)
    (cp : CurrentlyPlaying) (s : VoiceSession)
    (hs : lookupSession st.sessions g = some s) :
    procBound1 (procsOf s.currentProcess) (playTrack env st g cp).2 = true ∧
    (∀ p, s.currentProcess = some p →
      noSpawnBeforeKill p.pid (playTrack env st g cp).2 = true) := by
  have hsb : ((searchFirst env (playQueries cp)).2).all benignEff = true :=
    searchFirst_benign env (playQueries cp)
  unfold playTrack
  rw [hs]
  cases htk : cp.trackUrl with
  | none =>
    constructor
    · cases hcp : s.currentProcess <;> simp [procBound1, procsOf]
    · intro p hpp
      simp [noSpawnBeforeKill]
  | some tu =>
    by_cases hne : tu = ""
    · simp only [if_pos hne]
      constructor
      · cases hcp : s.currentProcess <;> simp [procBound1, procsOf]
      · intro p hpp
        simp [noSpawnBeforeKill]
    · simp only [if_neg hne]
      cases hcp : s.currentProcess with
      | none =>
        simp only [procsOf]
        cases hsf : searchFirst env (playQueries cp) with
        | mk vres searchEffs =>
        rw [hsf] at hsb
        simp only at hsb
        cases vres with
        | none =>
          simp only
          constructor
          · simp [procBound1, applyProcEffect, procBound1_benign searchEffs hsb]
          · intro p hpp
            simp at hpp
        | some vUrl =>
          simp only
          have hxb : ((getYouTubeAudioUrl env vUrl).2).all benignEff = true :=
            extractFirst_benign env vUrl ytFormats
          cases hx : getYouTubeAudioUrl env vUrl with
          | mk ares extEffs =>
          rw [hx] at hxb
          simp only at hxb
          cases ares with
          | none =>
            simp only
            constructor
            · rw [List.append_assoc]
              simp [procBound1, applyProcEffect,
                procBound1_append_benign searchEffs extEffs [] hsb,
                procBound1_benign extEffs hxb]
            · intro p hpp
              simp at hpp
          | some aUrl =>
            simp only
            cases hso : env.spawnStdoutOk with
            | false =>
              simp only [hso, if_pos rfl]
              constructor
              · rw [List.append_assoc, List.append_assoc]
                simp [procBound1, applyProcEffect,
                  procBound1_append_benign searchEffs _ [] hsb,
                  procBound1_append_benign extEffs _ [] hxb]
              · intro p hpp
                simp at hpp
            | true =>
              simp only [hso, if_neg (by simp : ¬(true = false))]
              constructor
              · rw [List.append_assoc, List.append_assoc]
                simp [procBound1, applyProcEffect,
                  procBound1_append_benign searchEffs _ [] hsb,
                  procBound1_append_benign extEffs _ [] hxb]
              · intro p hpp
                simp at hpp
      | some p0 =>
        simp only [procsOf]
        cases hsf : searchFirst env (playQueries cp) with
        | mk vres searchEffs =>
        rw [hsf] at hsb
        simp only at hsb
        cases vres with
        | none =>
          simp only
          constructor
          · simp [procBound1, applyProcEffect, List.erase_cons_head,
              procBound1_benign searchEffs hsb]
          · intro p hpp
            injection hpp with hpp2
            subst hpp2
            simp [noSpawnBeforeKill]
        | some vUrl =>
          simp only
          have hxb : ((getYouTubeAudioUrl env vUrl).2).all benignEff = true :=
            extractFirst_benign env vUrl ytFormats
          cases hx : getYouTubeAudioUrl env vUrl with
          | mk ares extEffs =>
          rw [hx] at hxb
          simp only at hxb
          cases ares with
          | none =>
            simp only
            constructor
            · rw [List.append_assoc]
              simp [procBound1, applyProcEffect, List.erase_cons_head,
                procBound1_append_benign searchEffs extEffs [] hsb,
                procBound1_benign extEffs hxb]
            · intro p hpp
              injection hpp with hpp2
              subst hpp2
              simp [noSpawnBeforeKill]
          | some aUrl =>
            simp only
            cases hso : env.spawnStdoutOk with
            | false =>
              simp only [hso, if_pos rfl]
              constructor
              · rw [List.append_assoc, List.append_assoc]
                simp [procBound1, applyProcEffect, List.erase_cons_head,
                  procBound1_append_benign searchEffs _ [] hsb,
                  procBound1_append_benign extEffs _ [] hxb]
              · intro p hpp
                injection hpp with hpp2
                subst hpp2
                simp [noSpawnBeforeKill]
            | true =>
              simp only [hso, if_neg (by simp : ¬(true = false))]
              constructor
              · rw [List.append_assoc, List.append_assoc]
                simp [procBound1, applyProcEffect, List.erase_cons_head,
                  procBound1_append_benign searchEffs _ [] hsb,
                  procBound1_append_benign extEffs _ [] hxb]
              · intro p hpp
                injection hpp with hpp2
                subst hpp2
                simp [noSpawnBeforeKill]

/-- C2: within any poll tick, replaying the tick's effect trace from the
session's current process handle, at most one subprocess is live at every
intermediate point; and whenever the session holds a process handle, any
spawn in the trace is preceded by a kill of that handle (the previous
generation is signalled before the replacement is spawned). -/
theorem sync_single_generation (env : Env) (st : ManagerState) (g : String)
    (fetch : Except String (Option CurrentlyPlaying)) (s : VoiceSession)
    (hs : lookupSession st.sessions g = some s) :
    procBound1 (procsOf s.currentProcess) (tickTrace env st g fetch) = true ∧
    (∀ p, s.currentProcess = some p →
      noSpawnBeforeKill p.pid (tickTrace env st g fetch) = true) := by
  unfold tickTrace
  cases fetch with
  | error e =>
    have hr : syncSpotifyPlayback env st g (Except.error e) =
        (st, [Effect.logError e]) := by
      simp [syncSpotifyPlayback, hs]
    rw [hr]
    constructor
    · cases hcp : s.currentProcess <;>
        simp [procBound1, applyProcEffect, procsOf]
    · intro p hpp
      simp [noSpawnBeforeKill]
  | ok ocp =>
    cases ocp with
    | none =>
      by_cases hid : s.playerStatus = PlayerStatus.idle
      · have hr : syncSpotifyPlayback env st g (Except.ok none) = (st, []) := by
          simp [syncSpotifyPlayback, hs, hid]
        rw [hr]
        constructor
        · cases hcp : s.currentProcess <;>
            simp [procBound1, applyProcEffect, procsOf]
        · intro p hpp
          simp [noSpawnBeforeKill]
      · cases hcp : s.currentProcess with
        | none =>
          have hr : (syncSpotifyPlayback env st g (Except.ok none)).2 =
              [Effect.playerStop] := by
            simp [syncSpotifyPlayback, hs, hid, hcp]
          rw [hr]
          constructor
          · simp [procBound1, applyProcEffect, procsOf]
          · intro p hpp
            simp at hpp
        | some p0 =>
          have hr : (syncSpotifyPlayback env st g (Except.ok none)).2 =
              [Effect.killProc p0.pid, Effect.playerStop] := by
            simp [syncSpotifyPlayback, hs, hid, hcp]
          rw [hr]
          constructor
          · simp [procBound1, applyProcEffect, procsOf, List.erase_cons_head]
          · intro p hpp
            injection hpp with hpp2
            subst hpp2
            simp [noSpawnBeforeKill]
    | some cp =>
      by_cases hpl : cp.isPlaying = false
      · by_cases hst : s.playerStatus = PlayerStatus.playing
        · have hr : (syncSpotifyPlayback env st g (Except.ok (some cp))).2 =
              [Effect.playerPause] := by
            simp [syncSpotifyPlayback, hs, hpl, hst]
          rw [hr]
          constructor
          · cases hcp : s.currentProcess <;>
              simp [procBound1, applyProcEffect, procsOf]
          · intro p hpp
            simp [noSpawnBeforeKill]
        · have hr : syncSpotifyPlayback env st g (Except.ok (some cp)) =
              (st, []) := by
            simp [syncSpotifyPlayback, hs, hpl, hst]
          rw [hr]
          constructor
          · cases hcp : s.currentProcess <;>
              simp [procBound1, applyProcEffect, procsOf]
          · intro p hpp
            simp [noSpawnBeforeKill]
      · have hpl2 : cp.isPlaying = true := by
          cases hb : cp.isPlaying
          · exact absurd hb hpl
          · rfl
        cases htk : cp.trackUrl with
        | none =>
          by_cases hst : s.playerStatus = PlayerStatus.paused
          · have hr : (syncSpotifyPlayback env st g (Except.ok (some cp))).2 =
                [Effect.playerUnpause] := by
              simp [syncSpotifyPlayback, hs, hpl2, htk, hst]
            rw [hr]
            constructor
            · cases hcp : s.currentProcess <;>
                simp [procBound1, applyProcEffect, procsOf]
            · intro p hpp
              simp [noSpawnBeforeKill]
          · have hr : syncSpotifyPlayback env st g (Except.ok (some cp)) =
                (st, []) := by
              simp [syncSpotifyPlayback, hs, hpl2, htk, hst]
            rw [hr]
            constructor
            · cases hcp : s.currentProcess <;>
                simp [procBound1, applyProcEffect, procsOf]
            · intro p hpp
              simp [noSpawnBeforeKill]
        | some tu =>
          by_cases hg : tu ≠ "" ∧ some tu ≠ s.currentTrackUrl
          · have hr : syncSpotifyPlayback env st g (Except.ok (some cp)) =
                playTrack env st g cp := by
              simp [syncSpotifyPlayback, hs, hpl2, htk, hg]
            rw [hr]
            exact playTrack_procBound env st g cp s hs
          · by_cases hst : s.playerStatus = PlayerStatus.paused
            · have hr : (syncSpotifyPlayback env st g (Except.ok (some cp))).2 =
                  [Effect.playerUnpause] := by
                simp [syncSpotifyPlayback, hs, hpl2, htk, hg, hst]
              rw [hr]
              constructor
              · cases hcp : s.currentProcess <;>
                  simp [procBound1, applyProcEffect, procsOf]
              · intro p hpp
                simp [noSpawnBeforeKill]
            · have hr : syncSpotifyPlayback env st g (Except.ok (some cp)) =
                  (st, []) := by
                simp [syncSpotifyPlayback, hs, hpl2, htk, hg, hst]
              rw [hr]
              constructor
              · cases hcp : s.currentProcess <;>
                  simp [procBound1, applyProcEffect, procsOf]
              · intro p hpp
                simp [noSpawnBeforeKill]

/-- C2 witness: the concrete track switch on `stA`, whose session holds the
live process 7. -/
theorem sync_single_generation_witness :
    procBound1 (procsOf sA.currentProcess)
      (tickTrace envOK stA "g" (Except.ok (some cpB))) = true ∧
    (∀ p, sA.currentProcess = some p →
      noSpawnBeforeKill p.pid
        (tickTrace envOK stA "g" (Except.ok (some cpB))) = true) :=
  sync_single_generation envOK stA "g" (Except.ok (some cpB)) sA (by decide)

lemma procTrackOk_status (s : VoiceSession) (x : PlayerStatus) :
    procTrackOk { s with playerStatus := x } = procTrackOk s := by
  cases hcp : s.currentProcess <;> simp [procTrackOk, hcp]

lemma playTrack_procTrack (env : Env) (st : ManagerState) (g : String)
    (cp : CurrentlyPlaying) (s : VoiceSession)
    (hok : env.spawnStdoutOk = true)
    (hs : lookupSession st.sessions g = some s)
    (hinv : procTrackOk s = true) :
    ∀ s', lookupSession (playTrack env st g cp).1.sessions g = some s' →
      procTrackOk s' = true := by
  unfold playTrack
  rw [hs]
  cases htk : cp.trackUrl with
  | none =>
    intro s' hs'
    rw [hs] at hs'
    injection hs' with he
    subst he
    exact hinv
  | some tu =>
    by_cases hne : tu = ""
    · simp only [if_pos hne]
      intro s' hs'
      rw [hs] at hs'
      injection hs' with he
      subst he
      exact hinv
    · simp only [if_neg hne]
      cases hcp : s.currentProcess with
      | none =>
        simp only
        cases hsf : searchFirst env (playQueries cp) with
        | mk vres searchEffs =>
        cases vres with
        | none =>
          simp only
          intro s' hs'
          rw [lookup_update_self st.sessions g _ s hs] at hs'
          injection hs' with he
          subst he
          simp [procTrackOk, hcp]
        | some vUrl =>
          simp only
          cases hx : getYouTubeAudioUrl env vUrl with
          | mk ares extEffs =>
          cases ares with
          | none =>
            simp only
            intro s' hs'
            rw [lookup_update_self st.sessions g _ s hs] at hs'
            injection hs' with he
            subst he
            simp [procTrackOk, hcp]
          | some aUrl =>
            simp only [hok, if_neg (by simp : ¬(true = false))]
            intro s' hs'
            rw [lookup_update_self st.sessions g _ s hs] at hs'
            injection hs' with he
            subst he
            simp [procTrackOk]
      | some p0 =>
        simp only
        cases hsf : searchFirst env (playQueries cp) with
        | mk vres searchEffs =>
        cases vres with
        | none =>
          simp only
          intro s' hs'
          rw [lookup_update_self st.sessions g _ s hs] at hs'
          injection hs' with he
          subst he
          simp [procTrackOk]
        | some vUrl =>
          simp only
          cases hx : getYouTubeAudioUrl env vUrl with
          | mk ares extEffs =>
          cases ares with
          | none =>
            simp only
            intro s' hs'
            rw [lookup_update_self st.sessions g _ s hs] at hs'
            injection hs' with he
            subst he
            simp [procTrackOk]
          | some aUrl =>
            simp only [hok, if_neg (by simp : ¬(true = false))]
            intro s' hs'
            rw [lookup_update_self st.sessions g _ s hs] at hs'
            injection hs' with he
            subst he
            simp [procTrackOk]

/-- C9 counterexample: in the environment where the spawned transcoder has a
null stdout, the track-switch tick on `stA` stores the new process handle
(spawned for track B) but returns before updating currentTrackUrl (still
track A), leaving `activeProcessHandle` not corresponding to
`currentTrackId`. -/
theorem proc_track_mismatch_cex :
    (lookupSession (tickAfter envNoStdout stA "g"
        (Except.ok (some cpB))).sessions "g").map procTrackOk =
      some false := by decide

/-- C9 (amended): provided pipeline setup never stops at the null-stdout
check (every spawned transcoder exposes its stdout), every poll tick
preserves the correspondence between the session's process handle and its
currentTrackUrl: the two fields are updated together on track start,
stop-on-idle and every other tick outcome. If the spawned process has a null
stdout, playTrack returns between the two updates and the correspondence is
broken (see the counterexample). -/
theorem sync_proc_track_correspondence (env : Env) (st : ManagerState)
    (g : String) (fetch : Except String (Option CurrentlyPlaying))
    (s : VoiceSession)
    (hok : env.spawnStdoutOk = true)
    (hs : lookupSession st.sessions g = some s)
    (hinv : procTrackOk s = true) :
    ∀ s', lookupSession (tickAfter env st g fetch).sessions g = some s' →
      procTrackOk s' = true := by
  unfold tickAfter
  cases fetch with
  | error e =>
    have hr : syncSpotifyPlayback env st g (Except.error e) =
        (st, [Effect.logError e]) := by
      simp [syncSpotifyPlayback, hs]
    rw [hr]
    intro s' hs'
    rw [hs] at hs'
    injection hs' with he
    subst he
    exact hinv
  | ok ocp =>
    cases ocp with
    | none =>
      by_cases hid : s.playerStatus = PlayerStatus.idle
      · have hr : syncSpotifyPlayback env st g (Except.ok none) = (st, []) := by
          simp [syncSpotifyPlayback, hs, hid]
        rw [hr]
        intro s' hs'
        rw [hs] at hs'
        injection hs' with he
        subst he
        exact hinv
      · cases hcp : s.currentProcess with
        | none =>
          have hr : (syncSpotifyPlayback env st g (Except.ok none)).1 =
              { st with sessions := updateSession st.sessions g { s with playerStatus := PlayerStatus.idle, currentTrackUrl := none } } := by
            simp [syncSpotifyPlayback, hs, hid, hcp]
          rw [hr]
          intro s' hs'
          rw [lookup_update_self st.sessions g _ s hs] at hs'
          injection hs' with he
          subst he
          simp [procTrackOk, hcp]
        | some p0 =>
          have hr : (syncSpotifyPlayback env st g (Except.ok none)).1 =
              { st with
                  liveProcs := st.liveProcs.erase p0.pid,
                  sessions := updateSession st.sessions g { s with currentProcess := none, playerStatus := PlayerStatus.idle, currentTrackUrl := none } } := by
            simp [syncSpotifyPlayback, hs, hid, hcp]
          rw [hr]
          intro s' hs'
          rw [lookup_update_self st.sessions g _ s hs] at hs'
          injection hs' with he
          subst he
          simp [procTrackOk]
    | some cp =>
      by_cases hpl : cp.isPlaying = false
      · by_cases hst : s.playerStatus = PlayerStatus.playing
        · have hr : (syncSpotifyPlayback env st g (Except.ok (some cp))).1 =
              { st with sessions := updateSession st.sessions g { s with playerStatus := PlayerStatus.paused } } := by
            simp [syncSpotifyPlayback, hs, hpl, hst]
          rw [hr]
          intro s' hs'
          rw [lookup_update_self st.sessions g _ s hs] at hs'
          injection hs' with he
          subst he
          rw [procTrackOk_status]
          exact hinv
        · have hr : syncSpotifyPlayback env st g (Except.ok (some cp)) =
              (st, []) := by
            simp [syncSpotifyPlayback, hs, hpl, hst]
          rw [hr]
          intro s' hs'
          rw [hs] at hs'
          injection hs' with he
          subst he
          exact hinv
      · have hpl2 : cp.isPlaying = true := by
          cases hb : cp.isPlaying
          · exact absurd hb hpl
          · rfl
        cases htk : cp.trackUrl with
        | none =>
          by_cases hst : s.playerStatus = PlayerStatus.paused
          · have hr : (syncSpotifyPlayback env st g (Except.ok (some cp))).1 =
                { st with sessions := updateSession st.sessions g { s with playerStatus := PlayerStatus.playing } } := by
              simp [syncSpotifyPlayback, hs, hpl2, htk, hst]
            rw [hr]
            intro s' hs'
            rw [lookup_update_self st.sessions g _ s hs] at hs'
            injection hs' with he
            subst he
            rw [procTrackOk_status]
            exact hinv
          · have hr : syncSpotifyPlayback env st g (Except.ok (some cp)) =
                (st, []) := by
              simp [syncSpotifyPlayback, hs, hpl2, htk, hst]
            rw [hr]
            intro s' hs'
            rw [hs] at hs'
            injection hs' with he
            subst he
            exact hinv
        | some tu =>
          by_cases hg : tu ≠ "" ∧ some tu ≠ s.currentTrackUrl
          · have hr : syncSpotifyPlayback env st g (Except.ok (some cp)) =
                playTrack env st g cp := by
              simp [syncSpotifyPlayback, hs, hpl2, htk, hg]
            rw [hr]
            exact playTrack_procTrack env st g cp s hok hs hinv
          · by_cases hst : s.playerStatus = PlayerStatus.paused
            · have hr : (syncSpotifyPlayback env st g (Except.ok (some cp))).1 =
                  { st with sessions := updateSession st.sessions g { s with playerStatus := PlayerStatus.playing } } := by
                simp [syncSpotifyPlayback, hs, hpl2, htk, hg, hst]
              rw [hr]
              intro s' hs'
              rw [lookup_update_self st.sessions g _ s hs] at hs'
              injection hs' with he
              subst he
              rw [procTrackOk_status]
              exact hinv
            · have hr : syncSpotifyPlayback env st g (Except.ok (some cp)) =
                  (st, []) := by
                simp [syncSpotifyPlayback, hs, hpl2, htk, hg, hst]
              rw [hr]
              intro s' hs'
              rw [hs] at hs'
              injection hs' with he
              subst he
              exact hinv

/-- C9 amended witness: the correspondence holds for the concrete session
produced by the track-switch tick on `stA` in the all-success environment. -/
theorem sync_proc_track_correspondence_witness :
    procTrackOk { sA with currentTrackUrl := some "spot:B", currentProcess := some ⟨8, "spot:B", true⟩ } = true :=
  sync_proc_track_correspondence envOK stA "g" (Except.ok (some cpB)) sA
    (by decide) (by decide) (by decide)
    { sA with currentTrackUrl := some "spot:B", currentProcess := some ⟨8, "spot:B", true⟩ }
    (by decide)
